import Mathlib

/-!
Shallow embedding of the session Resolution Engine of the `sess` repository
(package `session`, file with `Manager` and its operations), together with the
port contracts it consumes (`TmuxClient`, `TmuxinatorClient`, `ConfigLoader`)
and the shared `Session` record model.

Go conventions are mapped as follows: a Go `(T, error)` result becomes
`Except String T` when the nil-value case coincides with the error case, and a
pair `T × Option String` when the Go function meaningfully returns both
components; a Go `error` result of a side-effecting call becomes
`Option String` (`none` = nil error).  The side-effecting engine operations
(`CreateOrSwitch`, `GoToSession`, ...) return, next to the Go error value, the
trace of side-effecting port calls they issued, as a `List Action`; the Go
code issues at most one such call per invocation and returns its error.
Go's `sort.Slice` by ascending name is modelled with `List.mergeSort` on the
same comparator; all names are distinct at the sorting point whenever the live
listing has distinct names, so the model is order-equivalent to any correct
sort.  Go string `<`/`≤` is byte-wise lexicographic on UTF-8, which agrees
with Lean's codepoint-lexicographic `String` order.
-/

namespace Sess

/-- SessionType is a string-typed enumeration in the source. -/
abbrev SessionType := String

/-- Constant `SessionTypeTmux` of the source. -/
def sessionTypeTmux : SessionType := "tmux"

/-- Constant `SessionTypeTmuxinator` of the source. -/
def sessionTypeTmuxinator : SessionType := "tmuxinator"

/-- Constant `SessionTypeDefault` of the source. -/
def sessionTypeDefault : SessionType := "default"

/-- Session record (`Session` struct of the source).  Field defaults are the
Go zero values, so record literals mirror Go composite literals.  `createdAt`
abstracts `time.Time` as an opaque number. -/
structure Session where
  name : String := ""
  type : SessionType := ""
  windowCount : Int := 0
  directory : String := ""
  description : String := ""
  isActive : Bool := false
  tmuxinatorProject : String := ""
  createdAt : Nat := 0
deriving DecidableEq, Repr

/-- SessionConfig record (declared default entry from YAML). -/
structure SessionConfig where
  name : String := ""
  description : String := ""
  directory : String := ""
  tmuxinatorProject : String := ""
deriving DecidableEq, Repr

/-- Helper `formatWindowCount` of the source: singular for exactly 1. -/
def formatWindowCount (count : Int) : String :=
  if count = 1 then "1 window" else toString count ++ " windows"

/-- Method `Session.DisplayInfo` of the source (switch on the type string). -/
def Session.DisplayInfo (s : Session) : String :=
  if s.type = sessionTypeTmux then
    s.name ++ " (" ++ formatWindowCount s.windowCount ++ ")"
  else if s.type = sessionTypeTmuxinator then
    s.name ++ " (tmuxinator)"
  else if s.type = sessionTypeDefault then
    s.name ++ " (not started)"
  else
    s.name

/-- Multiplexer port: the `TmuxClient` interface, one field per method.
Query methods return `Except`; side-effecting methods return the Go error. -/
structure TmuxClient where
  listSessions : Except String (List Session)
  sessionExists : String → Except String Bool
  createSession : Session → Option String
  switchToSession : String → Bool → Option String
  attachToSession : String → Option String
  isInsideTmux : Bool
  switchToLastSession : Option String
  deleteSession : String → Option String

/-- Project launcher port: the `TmuxinatorClient` interface. -/
structure TmuxinatorClient where
  listProjects : Except String (List String)
  projectExists : String → Except String Bool
  startProject : String → Bool → Option String
  isInstalled : Bool

/-- Config port: the `ConfigLoader` interface. -/
structure ConfigLoader where
  loadDefaultSessions : String → Except String (List SessionConfig)
  getSessionConfig : String → String → Except String SessionConfig

/-- Action records one side-effecting port call issued by the engine. -/
inductive Action where
  | switchToSession (name : String) (fromTmux : Bool)
  | startProject (name : String) (fromTmux : Bool)
  | createSession (s : Session)
  | deleteSession (name : String)
  | switchToLastSession
deriving DecidableEq, Repr

/-- Manager (the Resolution Engine) with its injected dependencies. -/
structure Manager where
  tmuxClient : TmuxClient
  tmuxinatorClient : TmuxinatorClient
  configLoader : ConfigLoader
  platform : String

/-- Record synthesized by `ListAll` for a tmuxinator project name. -/
def mkProjectSession (projectName : String) : Session :=
  { name := projectName, type := sessionTypeTmuxinator, isActive := false }

/-- Record synthesized by `ListAll` for a declared default entry. -/
def mkDefaultSession (config : SessionConfig) : Session :=
  { name := config.name, type := sessionTypeDefault,
    description := config.description, directory := config.directory,
    isActive := false }

/-- Loop body shared by `ListAll`'s steps 2 and 3: append a synthesized
record for each entry whose key is not already in the name set, tracking the
name set alongside (the Go code uses a `map[string]bool` for the set;
membership in the accumulated list is the same predicate). -/
def addEntries {α : Type} (key : α → String) (mk : α → Session)
    (existingNames : List String) (sessions : List Session) :
    List α → List Session × List String
  | [] => (sessions, existingNames)
  | x :: xs =>
    if existingNames.contains (key x) then
      addEntries key mk existingNames sessions xs
    else
      addEntries key mk (existingNames ++ [key x]) (sessions ++ [mk x]) xs

/-- Step 1 of `ListAll`: the live sessions, with a listing failure absorbed
as the empty list. -/
def Manager.liveList (m : Manager) : List Session :=
  match m.tmuxClient.listSessions with
  | Except.ok ts => ts
  | Except.error _ => []

/-- Step 2 of `ListAll`: add tmuxinator projects not shadowed by a live
session, keeping the name set alongside; launcher unavailability or a listing
failure is absorbed. -/
def Manager.afterProjects (m : Manager) : List Session × List String :=
  if m.tmuxinatorClient.isInstalled then
    match m.tmuxinatorClient.listProjects with
    | Except.ok projects =>
        addEntries id mkProjectSession (m.liveList.map Session.name) m.liveList projects
    | Except.error _ => (m.liveList, m.liveList.map Session.name)
  else (m.liveList, m.liveList.map Session.name)

/-- Step 3 of `ListAll`: add declared defaults not shadowed by an earlier
source; a config load failure is absorbed. -/
def Manager.afterDefaults (m : Manager) : List Session × List String :=
  match m.configLoader.loadDefaultSessions m.platform with
  | Except.ok defaults =>
      addEntries SessionConfig.name mkDefaultSession m.afterProjects.2 m.afterProjects.1 defaults
  | Except.error _ => m.afterProjects

/-- Method `ListAll`: merge live sessions, tmuxinator projects and declared
defaults, deduplicated by name with precedence live > project > default, then
sort ascending by name.  The declared error result is always nil. -/
def Manager.ListAll (m : Manager) : Except String (List Session) :=
  Except.ok (m.afterDefaults.1.mergeSort (fun a b => a.name ≤ b.name))

/-- Method `createDefaultSession`: materialize a declared default entry,
delegating to the launcher only when the entry names a project and the
launcher is installed; otherwise a plain creation seeded with the entry's
directory. -/
def Manager.createDefaultSession (m : Manager) (config : SessionConfig) :
    List Action × Option String :=
  if config.tmuxinatorProject ≠ "" ∧ m.tmuxinatorClient.isInstalled then
    let inTmux := m.tmuxClient.isInsideTmux
    ([Action.startProject config.tmuxinatorProject inTmux],
     m.tmuxinatorClient.startProject config.tmuxinatorProject inTmux)
  else
    let s : Session :=
      { name := config.name, type := sessionTypeTmux, directory := config.directory }
    ([Action.createSession s], m.tmuxClient.createSession s)

/-- Launcher probe shared by the precedence chains: the launcher confirms a
project only when it is installed and the existence check positively answers
true; a probe error counts as absence. -/
def Manager.launcherConfirms (m : Manager) (name : String) : Bool :=
  if m.tmuxinatorClient.isInstalled then
    match m.tmuxinatorClient.projectExists name with
    | Except.ok isProject => isProject
    | Except.error _ => false
  else false

/-- Method `CreateOrSwitch`: the precedence chain live switch, launcher
start, declared default, universal creation fallback. -/
def Manager.CreateOrSwitch (m : Manager) (name : String) :
    List Action × Option String :=
  match m.tmuxClient.sessionExists name with
  | Except.error e => ([], some ("failed to check if session exists: " ++ e))
  | Except.ok b =>
    if b then
      let inTmux := m.tmuxClient.isInsideTmux
      ([Action.switchToSession name inTmux], m.tmuxClient.switchToSession name inTmux)
    else
      if m.launcherConfirms name then
        let inTmux := m.tmuxClient.isInsideTmux
        ([Action.startProject name inTmux], m.tmuxinatorClient.startProject name inTmux)
      else
        match m.configLoader.getSessionConfig name m.platform with
        | Except.ok config => m.createDefaultSession config
        | Except.error _ =>
          let s : Session := { name := name, type := sessionTypeTmux }
          ([Action.createSession s], m.tmuxClient.createSession s)

/-- Method `SwitchToLast`. -/
def Manager.SwitchToLast (m : Manager) : List Action × Option String :=
  ([Action.switchToLastSession], m.tmuxClient.switchToLastSession)

/-- Method `SessionExists`: pure existence probe across the three sources,
live errors fatal, launcher and config errors absorbed. -/
def Manager.SessionExists (m : Manager) (name : String) : Bool × Option String :=
  match m.tmuxClient.sessionExists name with
  | Except.error e => (false, some e)
  | Except.ok b =>
    if b then (true, none)
    else
      if m.launcherConfirms name then (true, none)
      else
        match m.configLoader.getSessionConfig name m.platform with
        | Except.ok _ => (true, none)
        | Except.error _ => (false, none)

/-- Method `GoToSession`: resolve only, never create from nothing. -/
def Manager.GoToSession (m : Manager) (name : String) :
    List Action × Option String :=
  match m.SessionExists name with
  | (_, some e) => ([], some e)
  | (ex, none) =>
    if !ex then ([], some ("session '" ++ name ++ "' not found"))
    else m.CreateOrSwitch name

/-- Method `DeleteSession`. -/
def Manager.DeleteSession (m : Manager) (name : String) :
    List Action × Option String :=
  ([Action.deleteSession name], m.tmuxClient.deleteSession name)

/-- Tail of `GetSessionInfo` after the live tier falls through: the launcher
check, the declared-default lookup, then the `"new session"` answer. -/
def Manager.infoFallback (m : Manager) (name : String) : String × Option String :=
  if m.launcherConfirms name then ("tmuxinator project", none)
  else
    match m.configLoader.getSessionConfig name m.platform with
    | Except.ok config =>
      if config.description ≠ "" then ("default: " ++ config.description, none)
      else ("default (not started)", none)
    | Except.error _ => ("new session", none)

/-- Method `GetSessionInfo`: a human-readable status string for a name. -/
def Manager.GetSessionInfo (m : Manager) (name : String) : String × Option String :=
  match m.tmuxClient.sessionExists name with
  | Except.error e => ("", some e)
  | Except.ok ex =>
    if ex then
      match m.tmuxClient.listSessions with
      | Except.error e => ("", some e)
      | Except.ok sessions =>
        match sessions.find? (fun s => s.name == name) with
        | some s => (s.DisplayInfo, none)
        | none => m.infoFallback name
    else m.infoFallback name

/-! Concrete port instances mirroring the mocks of the repository's test file
(`MockTmuxClient`, `MockTmuxinatorClient`, `MockConfigLoader`,
`createTestManager`), used to exercise the theorems on closed inputs. -/

/-- Mock multiplexer port over a fixed session list. -/
def mkTmuxClient (sessions : List Session) : TmuxClient :=
  { listSessions := Except.ok sessions,
    sessionExists := fun name => Except.ok (sessions.any (fun s => s.name == name)),
    createSession := fun _ => none,
    switchToSession := fun _ _ => none,
    attachToSession := fun _ => none,
    isInsideTmux := false,
    switchToLastSession := none,
    deleteSession := fun _ => none }

/-- Mock launcher port over a fixed project list; installed iff non-empty,
as in the repository's `createTestManager`. -/
def mkTmuxinatorClient (projects : List String) : TmuxinatorClient :=
  { listProjects := Except.ok projects,
    projectExists := fun name => Except.ok (projects.any (fun p => p == name)),
    startProject := fun _ _ => none,
    isInstalled := !projects.isEmpty }

/-- Mock config port over a fixed list of declared defaults. -/
def mkConfigLoader (sessions : List SessionConfig) : ConfigLoader :=
  { loadDefaultSessions := fun _ => Except.ok sessions,
    getSessionConfig := fun name _ =>
      match sessions.find? (fun s => s.name == name) with
      | some s => Except.ok s
      | none => Except.error "session not found" }

/-- Test manager wiring the three mocks, as in the repository's tests. -/
def createTestManager (tmuxSessions : List Session) (projects : List String)
    (defaults : List SessionConfig) : Manager :=
  { tmuxClient := mkTmuxClient tmuxSessions,
    tmuxinatorClient := mkTmuxinatorClient projects,
    configLoader := mkConfigLoader defaults,
    platform := "macos" }

/-! Concrete scenario managers used by the counterexamples and the
witness instantiations below. -/

/-- Live record used by the concrete scenarios. -/
def sessionB : Session :=
  { name := "b", type := sessionTypeTmux, windowCount := 2, isActive := true }

/-- Scenario with one live session named `b` and nothing else. -/
def mgrLiveB : Manager := createTestManager [sessionB] [] []

/-- Scenario whose live-existence check always fails. -/
def mgrLiveErr : Manager :=
  { createTestManager [] [] [] with
    tmuxClient := { mkTmuxClient [] with sessionExists := fun _ => Except.error "boom" } }

/-- Scenario with an installed launcher owning project `p` and a declared
default `d` whose ref is `p`. -/
def mgrLauncher : Manager :=
  createTestManager [] ["p"] [{ name := "d", directory := "w", tmuxinatorProject := "p" }]

/-- Scenario with no sources at all. -/
def mgrEmpty : Manager := createTestManager [] [] []

/-- Scenario for the C1 counterexample: the multiplexer reports the same
name twice. -/
def mgrDupLive : Manager :=
  createTestManager [{ name := "a", type := sessionTypeTmux },
                     { name := "a", type := sessionTypeTmux }] [] []

/-- Scenario for the C2 counterexample: launcher not installed, a declared
default with a non-empty launcher ref and a working directory. -/
def mgrRefNoLauncher : Manager :=
  createTestManager [] [] [{ name := "d", directory := "w", tmuxinatorProject := "p" }]

/-- Declared default entry used by the launcher scenario. -/
def cfgDW : SessionConfig := { name := "d", directory := "w", tmuxinatorProject := "p" }

/-- Live scenarios for the info-string claims. -/
def mgrWin1 : Manager :=
  createTestManager [{ name := "n", type := sessionTypeTmux, windowCount := 1 }] [] []

/-- Live scenario with three windows. -/
def mgrWin3 : Manager :=
  createTestManager [{ name := "n", type := sessionTypeTmux, windowCount := 3 }] [] []

/-- Declared default with an empty description. -/
def mgrDescEmpty : Manager := createTestManager [] [] [{ name := "d" }]

/-- Declared default with a non-empty description. -/
def mgrDescFull : Manager :=
  createTestManager [] [] [{ name := "d", description := "Test default" }]

/-- Scenario where the live-existence check answers true though the live
listing is empty. -/
def mgrGhost : Manager :=
  { createTestManager [] [] [] with
    tmuxClient := { mkTmuxClient [] with sessionExists := fun _ => Except.ok true } }

/-! Structural lemmas about the `ListAll` pipeline.  The `addEntries` loop is
analysed by induction; the stage lemmas lift its invariants through steps 2
and 3 of the merge. -/

theorem addEntries_snd_eq_map {α : Type} (key : α → String) (mk : α → Session)
    (hmk : ∀ x, (mk x).name = key x) (xs : List α) :
    ∀ (ns : List String) (ss : List Session), ns = ss.map Session.name →
      (addEntries key mk ns ss xs).2 = (addEntries key mk ns ss xs).1.map Session.name := by
  induction xs with
  | nil => intro ns ss h; simpa [addEntries] using h
  | cons x xs ih =>
    intro ns ss h
    by_cases hc : key x ∈ ns
    · simpa [addEntries, hc] using ih ns ss h
    · simpa [addEntries, hc] using ih (ns ++ [key x]) (ss ++ [mk x]) (by simp [h, hmk])

theorem addEntries_snd_nodup {α : Type} (key : α → String) (mk : α → Session)
    (xs : List α) :
    ∀ (ns : List String) (ss : List Session), ns.Nodup →
      ((addEntries key mk ns ss xs).2).Nodup := by
  induction xs with
  | nil => intro ns ss h; simpa [addEntries] using h
  | cons x xs ih =>
    intro ns ss h
    by_cases hc : key x ∈ ns
    · simpa [addEntries, hc] using ih ns ss h
    · have hmem : key x ∉ ns := hc
      have hnd : (ns ++ [key x]).Nodup :=
        ((List.perm_append_singleton (key x) ns).nodup_iff).mpr (List.nodup_cons.mpr ⟨hmem, h⟩)
      simpa [addEntries, hc] using ih (ns ++ [key x]) (ss ++ [mk x]) hnd

theorem addEntries_mem_fst {α : Type} (key : α → String) (mk : α → Session)
    (xs : List α) :
    ∀ (ns : List String) (ss : List Session) (s : Session), s ∈ ss →
      s ∈ (addEntries key mk ns ss xs).1 := by
  induction xs with
  | nil => intro ns ss s h; simpa [addEntries] using h
  | cons x xs ih =>
    intro ns ss s h
    by_cases hc : key x ∈ ns
    · simpa [addEntries, hc] using ih ns ss s h
    · simpa [addEntries, hc] using ih (ns ++ [key x]) (ss ++ [mk x]) s (by simp [h])

theorem addEntries_fst_src {α : Type} (key : α → String) (mk : α → Session)
    (xs : List α) :
    ∀ (ns : List String) (ss : List Session) (s : Session),
      s ∈ (addEntries key mk ns ss xs).1 →
      s ∈ ss ∨ ∃ x, x ∈ xs ∧ s = mk x ∧ key x ∉ ns := by
  induction xs with
  | nil => intro ns ss s h; exact Or.inl (by simpa [addEntries] using h)
  | cons x xs ih =>
    intro ns ss s h
    by_cases hc : key x ∈ ns
    · rcases ih ns ss s (by simpa [addEntries, hc] using h) with h' | ⟨y, hy, rfl, hk⟩
      · exact Or.inl h'
      · exact Or.inr ⟨y, List.mem_cons_of_mem _ hy, rfl, hk⟩
    · have hnm : key x ∉ ns := hc
      rcases ih (ns ++ [key x]) (ss ++ [mk x]) s (by simpa [addEntries, hc] using h) with h' | ⟨y, hy, rfl, hk⟩
      · rcases List.mem_append.mp h' with h'' | h''
        · exact Or.inl h''
        · exact Or.inr ⟨x, List.mem_cons_self _ _, (List.mem_singleton.mp h'').symm ▸ rfl, hnm⟩
      · refine Or.inr ⟨y, List.mem_cons_of_mem _ hy, rfl, fun hmem => hk ?_⟩
        exact List.mem_append_left _ hmem

theorem addEntries_mem_snd {α : Type} (key : α → String) (mk : α → Session)
    (xs : List α) :
    ∀ (ns : List String) (ss : List Session) (n : String), n ∈ ns →
      n ∈ (addEntries key mk ns ss xs).2 := by
  induction xs with
  | nil => intro ns ss n h; simpa [addEntries] using h
  | cons x xs ih =>
    intro ns ss n h
    by_cases hc : key x ∈ ns
    · simpa [addEntries, hc] using ih ns ss n h
    · simpa [addEntries, hc] using ih (ns ++ [key x]) (ss ++ [mk x]) n (by simp [h])

theorem addEntries_key_mem_snd {α : Type} (key : α → String) (mk : α → Session)
    (xs : List α) :
    ∀ (ns : List String) (ss : List Session) (x : α), x ∈ xs →
      key x ∈ (addEntries key mk ns ss xs).2 := by
  induction xs with
  | nil => intro ns ss x h; cases h
  | cons y ys ih =>
    intro ns ss x h
    by_cases hc : key y ∈ ns
    · rcases List.mem_cons.mp h with rfl | h'
      · exact by simpa [addEntries, hc] using
          addEntries_mem_snd key mk ys ns ss (key x) hc
      · simpa [addEntries, hc] using ih ns ss x h'
    · rcases List.mem_cons.mp h with rfl | h'
      · exact by simpa [addEntries, hc] using
          addEntries_mem_snd key mk ys (ns ++ [key x]) (ss ++ [mk x]) (key x) (by simp)
      · simpa [addEntries, hc] using ih (ns ++ [key y]) (ss ++ [mk y]) x h'

theorem mkProjectSession_name (p : String) : (mkProjectSession p).name = id p := rfl

theorem mkDefaultSession_name (c : SessionConfig) : (mkDefaultSession c).name = c.name := rfl

theorem liveList_eq (m : Manager) (live : List Session)
    (h : m.tmuxClient.listSessions = Except.ok live) : m.liveList = live := by
  simp [Manager.liveList, h]

theorem afterProjects_snd_eq (m : Manager) :
    m.afterProjects.2 = m.afterProjects.1.map Session.name := by
  unfold Manager.afterProjects
  by_cases hi : m.tmuxinatorClient.isInstalled = true
  · cases hlp : m.tmuxinatorClient.listProjects with
    | ok ps =>
      simp only [hi, if_true, hlp]
      exact addEntries_snd_eq_map id mkProjectSession (fun x => rfl) ps _ _ rfl
    | error e => simp [hi, hlp]
  · simp [hi]

theorem afterProjects_snd_nodup (m : Manager)
    (h : (m.liveList.map Session.name).Nodup) : m.afterProjects.2.Nodup := by
  unfold Manager.afterProjects
  by_cases hi : m.tmuxinatorClient.isInstalled = true
  · cases hlp : m.tmuxinatorClient.listProjects with
    | ok ps =>
      simp only [hi, if_true, hlp]
      exact addEntries_snd_nodup _ _ ps _ _ h
    | error e => simpa [hi, hlp] using h
  · simpa [hi] using h

theorem afterProjects_mem_fst (m : Manager) (s : Session)
    (h : s ∈ m.liveList) : s ∈ m.afterProjects.1 := by
  unfold Manager.afterProjects
  by_cases hi : m.tmuxinatorClient.isInstalled = true
  · cases hlp : m.tmuxinatorClient.listProjects with
    | ok ps =>
      simp only [hi, if_true, hlp]
      exact addEntries_mem_fst _ _ ps _ _ s h
    | error e => simpa [hi, hlp] using h
  · simpa [hi] using h

theorem afterProjects_fst_src (m : Manager) (s : Session)
    (h : s ∈ m.afterProjects.1) :
    s ∈ m.liveList ∨
      (s.type = sessionTypeTmuxinator ∧ s.name ∉ m.liveList.map Session.name) := by
  unfold Manager.afterProjects at h
  by_cases hi : m.tmuxinatorClient.isInstalled = true
  · cases hlp : m.tmuxinatorClient.listProjects with
    | ok ps =>
      simp only [hi, hlp, if_true] at h
      rcases addEntries_fst_src id mkProjectSession ps _ _ s h with h' | ⟨p, _, rfl, hk⟩
      · exact Or.inl h'
      · exact Or.inr ⟨rfl, hk⟩
    | error e => simp only [hi, hlp, if_true] at h; exact Or.inl h
  · simp only [if_neg hi] at h; exact Or.inl h

theorem afterProjects_mem_snd (m : Manager) (n : String)
    (h : n ∈ m.liveList.map Session.name) : n ∈ m.afterProjects.2 := by
  unfold Manager.afterProjects
  by_cases hi : m.tmuxinatorClient.isInstalled = true
  · cases hlp : m.tmuxinatorClient.listProjects with
    | ok ps =>
      simp only [hi, if_true, hlp]
      exact addEntries_mem_snd _ _ ps _ _ n h
    | error e => simpa [hi, hlp] using h
  · simpa [hi] using h

theorem afterProjects_covers (m : Manager) (ps : List String) (p : String)
    (hi : m.tmuxinatorClient.isInstalled = true)
    (hlp : m.tmuxinatorClient.listProjects = Except.ok ps)
    (hp : p ∈ ps) : p ∈ m.afterProjects.2 := by
  unfold Manager.afterProjects
  simp only [hi, if_true, hlp]
  exact addEntries_key_mem_snd id mkProjectSession ps _ _ p hp

theorem afterDefaults_snd_eq (m : Manager) :
    m.afterDefaults.2 = m.afterDefaults.1.map Session.name := by
  unfold Manager.afterDefaults
  cases hld : m.configLoader.loadDefaultSessions m.platform with
  | ok ds =>
    simp only [hld]
    exact addEntries_snd_eq_map SessionConfig.name mkDefaultSession (fun x => rfl) ds _ _ (afterProjects_snd_eq m)
  | error e => simpa [hld] using afterProjects_snd_eq m

theorem afterDefaults_snd_nodup (m : Manager)
    (h : (m.liveList.map Session.name).Nodup) : m.afterDefaults.2.Nodup := by
  unfold Manager.afterDefaults
  cases hld : m.configLoader.loadDefaultSessions m.platform with
  | ok ds =>
    simp only [hld]
    exact addEntries_snd_nodup _ _ ds _ _ (afterProjects_snd_nodup m h)
  | error e => simpa [hld] using afterProjects_snd_nodup m h

theorem afterDefaults_mem_fst (m : Manager) (s : Session)
    (h : s ∈ m.afterProjects.1) : s ∈ m.afterDefaults.1 := by
  unfold Manager.afterDefaults
  cases hld : m.configLoader.loadDefaultSessions m.platform with
  | ok ds =>
    simp only [hld]
    exact addEntries_mem_fst _ _ ds _ _ s h
  | error e => simpa [hld] using h

theorem afterDefaults_fst_src (m : Manager) (s : Session)
    (h : s ∈ m.afterDefaults.1) :
    s ∈ m.afterProjects.1 ∨ s.name ∉ m.afterProjects.2 := by
  unfold Manager.afterDefaults at h
  cases hld : m.configLoader.loadDefaultSessions m.platform with
  | ok ds =>
    rw [hld] at h
    rcases addEntries_fst_src _ _ ds _ _ s h with h' | ⟨c, _, rfl, hk⟩
    · exact Or.inl h'
    · exact Or.inr hk
  | error e => rw [hld] at h; exact Or.inl h


theorem launcherConfirms_false (m : Manager) (name : String)
    (h : m.tmuxinatorClient.isInstalled = true →
      m.tmuxinatorClient.projectExists name ≠ Except.ok true) :
    m.launcherConfirms name = false := by
  unfold Manager.launcherConfirms
  by_cases hi : m.tmuxinatorClient.isInstalled = true
  · cases hpe : m.tmuxinatorClient.projectExists name with
    | ok b =>
      cases b with
      | true => exact absurd hpe (h hi)
      | false => simp [hi, hpe]
    | error e => simp [hi, hpe]
  · simp [hi]

theorem launcherConfirms_true (m : Manager) (name : String)
    (hi : m.tmuxinatorClient.isInstalled = true)
    (hpe : m.tmuxinatorClient.projectExists name = Except.ok true) :
    m.launcherConfirms name = true := by
  simp [Manager.launcherConfirms, hi, hpe]

theorem infoFallback_no_error (m : Manager) (name : String) :
    (m.infoFallback name).2 = none := by
  unfold Manager.infoFallback
  by_cases hc : m.launcherConfirms name = true
  · simp [hc]
  · cases hgc : m.configLoader.getSessionConfig name m.platform with
    | ok config =>
      by_cases hd : config.description = ""
      · simp [hc, hgc, hd]
      · simp [hc, hgc, hd]
    | error e => simp [hc, hgc]

/-- Claim C1 (amended): provided the live listing returns records with
pairwise-distinct names, each of live kind — which the multiplexer adapter
always produces — the `ListAll` result has pairwise-distinct names, every live
record survives into it unchanged, a name present in the live set occurs
exactly once and with live kind (so the live record wins every collision),
and a launcher project not shadowed by a live name survives with launcher
kind (so a launcher record wins over a declared default). -/
theorem claim1_listAll_names_unique_precedence (m : Manager) (live : List Session)
    (hlive : m.tmuxClient.listSessions = Except.ok live)
    (hnd : (live.map Session.name).Nodup)
    (hty : ∀ s ∈ live, s.type = sessionTypeTmux) :
    ∀ out, m.ListAll = Except.ok out →
      (out.map Session.name).Nodup ∧
      (∀ s ∈ live, s ∈ out) ∧
      (∀ n ∈ live.map Session.name,
        (out.map Session.name).count n = 1 ∧
        ∀ s ∈ out, s.name = n → s.type = sessionTypeTmux) ∧
      (∀ ps, m.tmuxinatorClient.isInstalled = true →
        m.tmuxinatorClient.listProjects = Except.ok ps →
        ∀ p ∈ ps, p ∉ live.map Session.name →
          ∃ s, s ∈ out ∧ s.name = p ∧ s.type = sessionTypeTmuxinator) := by
  intro out hout
  have hl : m.liveList = live := liveList_eq m live hlive
  simp only [Manager.ListAll, Except.ok.injEq] at hout
  have hperm : out.Perm m.afterDefaults.1 := by
    rw [← hout]; exact List.mergeSort_perm _ _
  have hfin_map : m.afterDefaults.2 = m.afterDefaults.1.map Session.name :=
    afterDefaults_snd_eq m
  have hfin_nodup : (m.afterDefaults.1.map Session.name).Nodup := by
    rw [← hfin_map]
    exact afterDefaults_snd_nodup m (by rw [hl]; exact hnd)
  have hout_nodup : (out.map Session.name).Nodup :=
    ((hperm.map Session.name).symm).nodup hfin_nodup
  have hmem_out : ∀ s ∈ live, s ∈ out := by
    intro s hs
    exact (hperm.mem_iff).mpr
      (afterDefaults_mem_fst m s (afterProjects_mem_fst m s (by rw [hl]; exact hs)))
  refine ⟨hout_nodup, hmem_out, ?_, ?_⟩
  · intro n hn
    constructor
    · obtain ⟨s, hs, rfl⟩ := List.mem_map.mp hn
      exact List.count_eq_one_of_mem hout_nodup (List.mem_map_of_mem _ (hmem_out s hs))
    · intro s hsout hname
      have hsf : s ∈ m.afterDefaults.1 := (hperm.mem_iff).mp hsout
      rcases afterDefaults_fst_src m s hsf with h2 | hnot
      · rcases afterProjects_fst_src m s h2 with h3 | ⟨_, hnm⟩
        · exact hty s (by rw [hl] at h3; exact h3)
        · exact absurd (by rw [hl, hname]; exact hn) hnm
      · exact absurd (afterProjects_mem_snd m s.name (by rw [hl, hname]; exact hn)) hnot
  · intro ps hi hlp p hp hpl
    have hpin : p ∈ m.afterProjects.2 := afterProjects_covers m ps p hi hlp hp
    rw [afterProjects_snd_eq m] at hpin
    obtain ⟨s, hs2, hname⟩ := List.mem_map.mp hpin
    refine ⟨s, (hperm.mem_iff).mpr (afterDefaults_mem_fst m s hs2), hname, ?_⟩
    rcases afterProjects_fst_src m s hs2 with h3 | ⟨hty3, _⟩
    · refine absurd ?_ hpl
      rw [← hname]
      exact List.mem_map_of_mem _ (by rw [hl] at h3; exact h3)
    · exact hty3

/-- Counterexample to claim C1 as stated: when the live listing itself
carries a duplicated name, the `ListAll` output names are not pairwise
distinct, so the universal claim over all port behaviors fails. -/
theorem claim1_cex :
    ∃ out, mgrDupLive.ListAll = Except.ok out ∧ ¬ (out.map Session.name).Nodup := by
  refine ⟨mgrDupLive.afterDefaults.1.mergeSort (fun a b => a.name ≤ b.name), rfl, ?_⟩
  intro h
  have hperm :=
    (List.mergeSort_perm mgrDupLive.afterDefaults.1 (fun a b => a.name ≤ b.name)).map
      Session.name
  have hnd := hperm.nodup h
  have he : mgrDupLive.afterDefaults.1 =
      [{ name := "a", type := sessionTypeTmux }, { name := "a", type := sessionTypeTmux }] := rfl
  rw [he] at hnd
  exact (by decide :
    ¬ (([{ name := "a", type := sessionTypeTmux },
         { name := "a", type := sessionTypeTmux }] : List Session).map Session.name).Nodup) hnd

/-- Witness for claim C1 on the one-live-session scenario. -/
theorem claim1_witness :
    mgrLiveB.tmuxClient.listSessions = Except.ok [sessionB] ∧
    ([sessionB].map Session.name).Nodup ∧
    (∀ s ∈ [sessionB], s.type = sessionTypeTmux) ∧
    (∀ out, mgrLiveB.ListAll = Except.ok out →
      (out.map Session.name).Nodup ∧
      (∀ s ∈ [sessionB], s ∈ out) ∧
      (∀ n ∈ [sessionB].map Session.name,
        (out.map Session.name).count n = 1 ∧
        ∀ s ∈ out, s.name = n → s.type = sessionTypeTmux) ∧
      (∀ ps, mgrLiveB.tmuxinatorClient.isInstalled = true →
        mgrLiveB.tmuxinatorClient.listProjects = Except.ok ps →
        ∀ p ∈ ps, p ∉ [sessionB].map Session.name →
          ∃ s, s ∈ out ∧ s.name = p ∧ s.type = sessionTypeTmuxinator)) :=
  ⟨rfl, by decide, by decide,
   claim1_listAll_names_unique_precedence mgrLiveB [sessionB] rfl (by decide) (by decide)⟩

/-- Claim C2 (amended): when `CreateOrSwitch` resolves a declared default
entry whose `launcherProjectRef` is non-empty and the launcher is installed,
it delegates entirely to the launcher start call, ignoring the entry
directory; an entry with an empty ref, or a non-empty ref with the launcher
not installed, leads to a plain creation call seeded with the entry
directory. -/
theorem claim2_default_entry_materialization (m : Manager) (name : String) (config : SessionConfig)
    (h1 : m.tmuxClient.sessionExists name = Except.ok false)
    (h2 : m.tmuxinatorClient.isInstalled = true →
      m.tmuxinatorClient.projectExists name ≠ Except.ok true)
    (h3 : m.configLoader.getSessionConfig name m.platform = Except.ok config) :
    (config.tmuxinatorProject ≠ "" → m.tmuxinatorClient.isInstalled = true →
      m.CreateOrSwitch name =
        ([Action.startProject config.tmuxinatorProject m.tmuxClient.isInsideTmux],
         m.tmuxinatorClient.startProject config.tmuxinatorProject m.tmuxClient.isInsideTmux)) ∧
    ((config.tmuxinatorProject = "" ∨ m.tmuxinatorClient.isInstalled = false) →
      m.CreateOrSwitch name =
        ([Action.createSession
            { name := config.name, type := sessionTypeTmux, directory := config.directory }],
         m.tmuxClient.createSession
            { name := config.name, type := sessionTypeTmux, directory := config.directory })) := by
  constructor
  · intro hp hi
    simp [Manager.CreateOrSwitch, h1, launcherConfirms_false m name h2, h3,
      Manager.createDefaultSession, hp, hi]
  · intro hcase
    rcases hcase with hp | hni
    · simp [Manager.CreateOrSwitch, h1, launcherConfirms_false m name h2, h3,
        Manager.createDefaultSession, hp]
    · simp [Manager.CreateOrSwitch, h1, launcherConfirms_false m name h2, h3,
        Manager.createDefaultSession, hni]

/-- Counterexample to claim C2 as stated: the resolved entry has a non-empty
launcher ref, yet with the launcher not installed `CreateOrSwitch` issues a
plain creation call seeded with the entry's working directory instead of
delegating to the launcher. -/
theorem claim2_cex :
    mgrRefNoLauncher.configLoader.getSessionConfig "d" "macos" =
      Except.ok { name := "d", directory := "w", tmuxinatorProject := "p" } ∧
    mgrRefNoLauncher.tmuxinatorClient.isInstalled = false ∧
    mgrRefNoLauncher.CreateOrSwitch "d" =
      ([Action.createSession { name := "d", type := sessionTypeTmux, directory := "w" }],
       none) := by
  refine ⟨rfl, rfl, by decide⟩

/-- Witness for claim C2 on the installed-launcher scenario. -/
theorem claim2_witness :
    mgrLauncher.tmuxClient.sessionExists "d" = Except.ok false ∧
    (mgrLauncher.tmuxinatorClient.isInstalled = true →
      mgrLauncher.tmuxinatorClient.projectExists "d" ≠ Except.ok true) ∧
    mgrLauncher.configLoader.getSessionConfig "d" mgrLauncher.platform = Except.ok cfgDW ∧
    ((cfgDW.tmuxinatorProject ≠ "" → mgrLauncher.tmuxinatorClient.isInstalled = true →
      mgrLauncher.CreateOrSwitch "d" =
        ([Action.startProject cfgDW.tmuxinatorProject mgrLauncher.tmuxClient.isInsideTmux],
         mgrLauncher.tmuxinatorClient.startProject cfgDW.tmuxinatorProject
           mgrLauncher.tmuxClient.isInsideTmux)) ∧
     ((cfgDW.tmuxinatorProject = "" ∨ mgrLauncher.tmuxinatorClient.isInstalled = false) →
      mgrLauncher.CreateOrSwitch "d" =
        ([Action.createSession
            { name := cfgDW.name, type := sessionTypeTmux, directory := cfgDW.directory }],
         mgrLauncher.tmuxClient.createSession
            { name := cfgDW.name, type := sessionTypeTmux, directory := cfgDW.directory }))) :=
  ⟨rfl,
   fun _ h => absurd (Except.ok.inj h) (by decide),
   rfl,
   claim2_default_entry_materialization mgrLauncher "d" cfgDW rfl
     (fun _ h => absurd (Except.ok.inj h) (by decide)) rfl⟩

/-- Claim C3: for a name that no source reports as existing, `GoToSession`
returns a not-found error naming the session and issues no side-effecting
port call; in particular it never reaches the universal create fallback. -/
theorem claim3_goToSession_not_found (m : Manager) (name : String)
    (h1 : m.tmuxClient.sessionExists name = Except.ok false)
    (h2 : m.tmuxinatorClient.isInstalled = true →
      m.tmuxinatorClient.projectExists name ≠ Except.ok true)
    (h3 : ∃ e, m.configLoader.getSessionConfig name m.platform = Except.error e) :
    m.GoToSession name = ([], some ("session '" ++ name ++ "' not found")) := by
  obtain ⟨e, he⟩ := h3
  have hse : m.SessionExists name = (false, none) := by
    simp [Manager.SessionExists, h1, launcherConfirms_false m name h2, he]
  simp [Manager.GoToSession, hse]

/-- Witness for claim C3 on the empty scenario. -/
theorem claim3_witness :
    mgrEmpty.tmuxClient.sessionExists "Z" = Except.ok false ∧
    (mgrEmpty.tmuxinatorClient.isInstalled = true →
      mgrEmpty.tmuxinatorClient.projectExists "Z" ≠ Except.ok true) ∧
    (∃ e, mgrEmpty.configLoader.getSessionConfig "Z" mgrEmpty.platform = Except.error e) ∧
    mgrEmpty.GoToSession "Z" = ([], some "session 'Z' not found") :=
  ⟨rfl, fun h => absurd h (by decide), ⟨"session not found", rfl⟩,
   claim3_goToSession_not_found mgrEmpty "Z" rfl (fun h => absurd h (by decide))
     ⟨"session not found", rfl⟩⟩

/-- Claim C4: for every name the Multiplexer Port confirms as live,
`CreateOrSwitch` issues exactly one switch call (never a creation call); and
when the live-existence check errors, the wrapped error is propagated with no
side-effecting call issued. -/
theorem claim4_live_switch_never_create (m : Manager) (name : String) :
    (m.tmuxClient.sessionExists name = Except.ok true →
      m.CreateOrSwitch name =
        ([Action.switchToSession name m.tmuxClient.isInsideTmux],
         m.tmuxClient.switchToSession name m.tmuxClient.isInsideTmux)) ∧
    (∀ e, m.tmuxClient.sessionExists name = Except.error e →
      m.CreateOrSwitch name =
        ([], some ("failed to check if session exists: " ++ e))) := by
  constructor
  · intro h; simp [Manager.CreateOrSwitch, h]
  · intro e h; simp [Manager.CreateOrSwitch, h]

/-- Witness for claim C4 on a live hit and on a failing live check. -/
theorem claim4_witness :
    (mgrLiveB.tmuxClient.sessionExists "b" = Except.ok true ∧
     mgrLiveB.CreateOrSwitch "b" =
       ([Action.switchToSession "b" false], (none : Option String))) ∧
    (mgrLiveErr.tmuxClient.sessionExists "x" = Except.error "boom" ∧
     mgrLiveErr.CreateOrSwitch "x" =
       ([], some "failed to check if session exists: boom")) :=
  ⟨⟨rfl, (claim4_live_switch_never_create mgrLiveB "b").1 rfl⟩,
   ⟨rfl, (claim4_live_switch_never_create mgrLiveErr "x").2 "boom" rfl⟩⟩

/-- Claim C5: for a name that is not live, not a confirmed launcher project
and not a resolvable declared default, `CreateOrSwitch` issues exactly one
plain creation call carrying that name and no working directory. -/
theorem claim5_universal_fallback (m : Manager) (name : String)
    (h1 : m.tmuxClient.sessionExists name = Except.ok false)
    (h2 : m.tmuxinatorClient.isInstalled = true →
      m.tmuxinatorClient.projectExists name ≠ Except.ok true)
    (h3 : ∃ e, m.configLoader.getSessionConfig name m.platform = Except.error e) :
    m.CreateOrSwitch name =
      ([Action.createSession { name := name, type := sessionTypeTmux }],
       m.tmuxClient.createSession { name := name, type := sessionTypeTmux }) := by
  obtain ⟨e, he⟩ := h3
  simp [Manager.CreateOrSwitch, h1, launcherConfirms_false m name h2, he]

/-- Witness for claim C5 on the empty scenario. -/
theorem claim5_witness :
    mgrEmpty.tmuxClient.sessionExists "Y" = Except.ok false ∧
    (mgrEmpty.tmuxinatorClient.isInstalled = true →
      mgrEmpty.tmuxinatorClient.projectExists "Y" ≠ Except.ok true) ∧
    (∃ e, mgrEmpty.configLoader.getSessionConfig "Y" mgrEmpty.platform = Except.error e) ∧
    mgrEmpty.CreateOrSwitch "Y" =
      ([Action.createSession { name := "Y", type := sessionTypeTmux }],
       (none : Option String)) :=
  ⟨rfl, fun h => absurd h (by decide), ⟨"session not found", rfl⟩,
   claim5_universal_fallback mgrEmpty "Y" rfl (fun h => absurd h (by decide))
     ⟨"session not found", rfl⟩⟩

/-- Claim C6: `SessionExists` performs only existence checks, returns true on
the first positive match in the order live, launcher project, declared
default, false when all three report absence; launcher-probe and
config-lookup errors count as absence, while a live-check error is returned
to the caller together with false.  The last conjunct shows the result is
invariant under every side-effecting port field. -/
theorem claim6_sessionExists_probe (m : Manager) (name : String) :
    (∀ e, m.tmuxClient.sessionExists name = Except.error e →
      m.SessionExists name = (false, some e)) ∧
    (m.tmuxClient.sessionExists name = Except.ok true →
      m.SessionExists name = (true, none)) ∧
    (m.tmuxClient.sessionExists name = Except.ok false →
      m.tmuxinatorClient.isInstalled = true →
      m.tmuxinatorClient.projectExists name = Except.ok true →
      m.SessionExists name = (true, none)) ∧
    (∀ config, m.tmuxClient.sessionExists name = Except.ok false →
      (m.tmuxinatorClient.isInstalled = true →
        m.tmuxinatorClient.projectExists name ≠ Except.ok true) →
      m.configLoader.getSessionConfig name m.platform = Except.ok config →
      m.SessionExists name = (true, none)) ∧
    (∀ e, m.tmuxClient.sessionExists name = Except.ok false →
      (m.tmuxinatorClient.isInstalled = true →
        m.tmuxinatorClient.projectExists name ≠ Except.ok true) →
      m.configLoader.getSessionConfig name m.platform = Except.error e →
      m.SessionExists name = (false, none)) ∧
    (∀ sw cr att del lst stp,
      Manager.SessionExists
        { m with
          tmuxClient := { m.tmuxClient with
            switchToSession := sw, createSession := cr, attachToSession := att,
            deleteSession := del, switchToLastSession := lst },
          tmuxinatorClient := { m.tmuxinatorClient with startProject := stp } } name
        = m.SessionExists name) := by
  refine ⟨?_, ?_, ?_, ?_, ?_, ?_⟩
  · intro e h; simp [Manager.SessionExists, h]
  · intro h; simp [Manager.SessionExists, h]
  · intro h hi hpe; simp [Manager.SessionExists, h, launcherConfirms_true m name hi hpe]
  · intro config h h2 hgc
    simp [Manager.SessionExists, h, launcherConfirms_false m name h2, hgc]
  · intro e h h2 hgc
    simp [Manager.SessionExists, h, launcherConfirms_false m name h2, hgc]
  · intro sw cr att del lst stp
    rfl

/-- Witness for claim C6 exercising each probe tier on concrete scenarios. -/
theorem claim6_witness :
    (mgrLiveErr.tmuxClient.sessionExists "x" = Except.error "boom" ∧
     mgrLiveErr.SessionExists "x" = (false, some "boom")) ∧
    (mgrLiveB.tmuxClient.sessionExists "b" = Except.ok true ∧
     mgrLiveB.SessionExists "b" = (true, none)) ∧
    (mgrLauncher.tmuxinatorClient.projectExists "p" = Except.ok true ∧
     mgrLauncher.SessionExists "p" = (true, none)) ∧
    (mgrLauncher.configLoader.getSessionConfig "d" mgrLauncher.platform = Except.ok cfgDW ∧
     mgrLauncher.SessionExists "d" = (true, none)) ∧
    (mgrEmpty.SessionExists "Z" = (false, none)) ∧
    (Manager.SessionExists
       { mgrLiveB with
         tmuxClient := { mgrLiveB.tmuxClient with
           switchToSession := fun _ _ => some "sw", createSession := fun _ => some "cr",
           attachToSession := fun _ => some "att", deleteSession := fun _ => some "del",
           switchToLastSession := some "lst" },
         tmuxinatorClient :=
           { mgrLiveB.tmuxinatorClient with startProject := fun _ _ => some "stp" } } "b"
     = mgrLiveB.SessionExists "b") :=
  ⟨⟨rfl, (claim6_sessionExists_probe mgrLiveErr "x").1 "boom" rfl⟩,
   ⟨rfl, (claim6_sessionExists_probe mgrLiveB "b").2.1 rfl⟩,
   ⟨rfl, (claim6_sessionExists_probe mgrLauncher "p").2.2.1 rfl rfl rfl⟩,
   ⟨rfl, (claim6_sessionExists_probe mgrLauncher "d").2.2.2.1 cfgDW rfl
      (fun _ h => absurd (Except.ok.inj h) (by decide)) rfl⟩,
   (claim6_sessionExists_probe mgrEmpty "Z").2.2.2.2.1 "session not found" rfl
      (fun h => absurd h (by decide)) rfl,
   (claim6_sessionExists_probe mgrLiveB "b").2.2.2.2.2 _ _ _ _ _ _⟩

/-- Claim C7: for every behavior of the three ports, the `ListAll` result is
sorted in ascending lexicographic order of the record names. -/
theorem claim7_listAll_sorted (m : Manager) :
    ∀ out, m.ListAll = Except.ok out →
      List.Sorted (fun a b : Session => a.name ≤ b.name) out := by
  intro out hout
  simp only [Manager.ListAll, Except.ok.injEq] at hout
  rw [← hout]
  refine List.Pairwise.imp (fun hab => of_decide_eq_true hab)
    (@List.sorted_mergeSort Session (fun a b => decide (a.name ≤ b.name)) ?_ ?_
      m.afterDefaults.1)
  · intro a b c h1 h2
    simp only [decide_eq_true_eq] at h1 h2 ⊢
    exact le_trans h1 h2
  · intro a b
    simp only [Bool.or_eq_true, decide_eq_true_eq]
    exact le_total a.name b.name

/-- Witness for claim C7 on the one-live-session scenario. -/
theorem claim7_witness :
    ∃ out, mgrLiveB.ListAll = Except.ok out ∧
      List.Sorted (fun a b : Session => a.name ≤ b.name) out :=
  ⟨_, rfl, claim7_listAll_sorted mgrLiveB _ rfl⟩

/-- Claim C8: `GetSessionInfo` for a live session found with windowCount 1
yields exactly `"<name> (1 window)"`, with windowCount 3 exactly
`"<name> (3 windows)"`; for a declared default it yields
`"default: <description>"` when the description is non-empty and
`"default (not started)"` when it is empty. -/
theorem claim8_getSessionInfo_strings (m : Manager) (name : String) :
    (∀ l s, m.tmuxClient.sessionExists name = Except.ok true →
      m.tmuxClient.listSessions = Except.ok l →
      l.find? (fun s' => s'.name == name) = some s →
      s.type = sessionTypeTmux → s.windowCount = 1 →
      m.GetSessionInfo name = (name ++ " (1 window)", none)) ∧
    (∀ l s, m.tmuxClient.sessionExists name = Except.ok true →
      m.tmuxClient.listSessions = Except.ok l →
      l.find? (fun s' => s'.name == name) = some s →
      s.type = sessionTypeTmux → s.windowCount = 3 →
      m.GetSessionInfo name = (name ++ " (3 windows)", none)) ∧
    (∀ config, m.tmuxClient.sessionExists name = Except.ok false →
      (m.tmuxinatorClient.isInstalled = true →
        m.tmuxinatorClient.projectExists name ≠ Except.ok true) →
      m.configLoader.getSessionConfig name m.platform = Except.ok config →
      config.description = "" →
      m.GetSessionInfo name = ("default (not started)", none)) ∧
    (∀ config, m.tmuxClient.sessionExists name = Except.ok false →
      (m.tmuxinatorClient.isInstalled = true →
        m.tmuxinatorClient.projectExists name ≠ Except.ok true) →
      m.configLoader.getSessionConfig name m.platform = Except.ok config →
      config.description ≠ "" →
      m.GetSessionInfo name = ("default: " ++ config.description, none)) := by
  refine ⟨?_, ?_, ?_, ?_⟩
  · intro l s h1 h2 hf hty hwc
    have hname : s.name = name := by simpa using List.find?_some hf
    simp [Manager.GetSessionInfo, h1, h2, hf, Session.DisplayInfo, hty, hwc,
      formatWindowCount, hname, sessionTypeTmux, String.append_assoc]
  · intro l s h1 h2 hf hty hwc
    have hname : s.name = name := by simpa using List.find?_some hf
    have h3 : formatWindowCount 3 = "3 windows" := by decide
    simp [Manager.GetSessionInfo, h1, h2, hf, Session.DisplayInfo, hty, hwc,
      h3, hname, sessionTypeTmux, String.append_assoc]
  · intro config h1 h2 hgc hd
    simp [Manager.GetSessionInfo, h1, Manager.infoFallback,
      launcherConfirms_false m name h2, hgc, hd]
  · intro config h1 h2 hgc hd
    simp [Manager.GetSessionInfo, h1, Manager.infoFallback,
      launcherConfirms_false m name h2, hgc, hd]

/-- Witness for claim C8 on the four concrete info scenarios. -/
theorem claim8_witness :
    (mgrWin1.tmuxClient.sessionExists "n" = Except.ok true ∧
     mgrWin1.GetSessionInfo "n" = ("n (1 window)", none)) ∧
    (mgrWin3.tmuxClient.sessionExists "n" = Except.ok true ∧
     mgrWin3.GetSessionInfo "n" = ("n (3 windows)", none)) ∧
    (mgrDescEmpty.configLoader.getSessionConfig "d" mgrDescEmpty.platform =
       Except.ok { name := "d" } ∧
     mgrDescEmpty.GetSessionInfo "d" = ("default (not started)", none)) ∧
    (mgrDescFull.configLoader.getSessionConfig "d" mgrDescFull.platform =
       Except.ok { name := "d", description := "Test default" } ∧
     mgrDescFull.GetSessionInfo "d" = ("default: Test default", none)) :=
  ⟨⟨rfl, (claim8_getSessionInfo_strings mgrWin1 "n").1
      [{ name := "n", type := sessionTypeTmux, windowCount := 1 }]
      { name := "n", type := sessionTypeTmux, windowCount := 1 } rfl rfl rfl rfl rfl⟩,
   ⟨rfl, (claim8_getSessionInfo_strings mgrWin3 "n").2.1
      [{ name := "n", type := sessionTypeTmux, windowCount := 3 }]
      { name := "n", type := sessionTypeTmux, windowCount := 3 } rfl rfl rfl rfl rfl⟩,
   ⟨rfl, (claim8_getSessionInfo_strings mgrDescEmpty "d").2.2.1
      { name := "d" } rfl (fun h => absurd h (by decide)) rfl rfl⟩,
   ⟨rfl, (claim8_getSessionInfo_strings mgrDescFull "d").2.2.2
      { name := "d", description := "Test default" } rfl
      (fun h => absurd h (by decide)) rfl (by decide)⟩⟩

/-- Claim C9: for every behavior of the three ports, including arbitrary
errors from the live listing, the project listing and the config load, the
error component of `ListAll` is nil. -/
theorem claim9_listAll_never_errors (m : Manager) :
    ∃ out, m.ListAll = Except.ok out :=
  ⟨_, rfl⟩

/-- Claim C10: when the live-existence check answers true but the fetched
live listing has no record with the name, `GetSessionInfo` returns neither
live-session info nor an error: it falls through to the launcher check, then
the declared-default lookup, then `"new session"` — exactly the
`infoFallback` tail — and its error component is nil. -/
theorem claim10_info_live_miss_falls_through (m : Manager) (name : String) (l : List Session)
    (h1 : m.tmuxClient.sessionExists name = Except.ok true)
    (h2 : m.tmuxClient.listSessions = Except.ok l)
    (h3 : l.find? (fun s => s.name == name) = none) :
    m.GetSessionInfo name = m.infoFallback name ∧
    (m.GetSessionInfo name).2 = none := by
  have h : m.GetSessionInfo name = m.infoFallback name := by
    simp [Manager.GetSessionInfo, h1, h2, h3]
  exact ⟨h, h ▸ infoFallback_no_error m name⟩

/-- Witness for claim C10 on the ghost-session scenario. -/
theorem claim10_witness :
    mgrGhost.tmuxClient.sessionExists "g" = Except.ok true ∧
    mgrGhost.tmuxClient.listSessions = Except.ok ([] : List Session) ∧
    mgrGhost.GetSessionInfo "g" = mgrGhost.infoFallback "g" ∧
    (mgrGhost.GetSessionInfo "g").2 = none :=
  ⟨rfl, rfl,
   (claim10_info_live_miss_falls_through mgrGhost "g" [] rfl rfl rfl).1,
   (claim10_info_live_miss_falls_through mgrGhost "g" [] rfl rfl rfl).2⟩

end Sess
